import Mathlib

/-!
Verification of the SVG-to-PDF drawing core (`drawSvg` module).

The geometry helpers (`Point`, `Segment`, `Rectangle`, `getIntersections`,
`distance`, `distanceCoords`, `isEqual`) are imported by the module from
`src/utils/elements`, `src/utils/intersections` and `src/utils/maths`, whose
sources are not part of this repository snapshot; they are modelled from the
specification (section 3 and 4.6).  Coordinates are embedded as rationals.
Euclidean distances are represented by their squares (`distSq`): a distance is
zero iff its square is zero, and comparisons of distances agree with
comparisons of their squares, so the membership test and the nearest-point
selection are unchanged.
-/

namespace PdfSvg

/-- Modelled from the spec: the `Point` value of `src/utils/elements`
(a pair of coordinates). -/
structure Point where
  x : ℚ
  y : ℚ
deriving DecidableEq, Repr

/-- Modelled from the spec: the `Segment` value of `src/utils/elements`
(two endpoints `A` and `B`). -/
structure Segment where
  A : Point
  B : Point
deriving DecidableEq, Repr

/-- Modelled from the spec: the `Rectangle` value of `src/utils/elements`,
built from two opposite corner points (as in `drawSvg`:
`new Rectangle(new Point(x, y), new Point(x + width, y - height))`). -/
structure Rectangle where
  P1 : Point
  P2 : Point
deriving DecidableEq, Repr

def Rectangle.xMin (r : Rectangle) : ℚ := min r.P1.x r.P2.x

def Rectangle.xMax (r : Rectangle) : ℚ := max r.P1.x r.P2.x

def Rectangle.yMin (r : Rectangle) : ℚ := min r.P1.y r.P2.y

def Rectangle.yMax (r : Rectangle) : ℚ := max r.P1.y r.P2.y

/-- Modelled from the spec: squared Euclidean distance, standing in for
`distance`/`distanceCoords` of `src/utils/maths` (distance comparisons and
zero tests are equivalent on squares). -/
def distSq (p q : Point) : ℚ := (p.x - q.x) ^ 2 + (p.y - q.y) ^ 2

/-- Modelled from the spec: `Rectangle.orthoProjection` of
`src/utils/elements` — the orthogonal projection of a point onto the
rectangle, i.e. the coordinate-wise clamp onto the rectangle's bounds. -/
def Rectangle.orthoProjection (r : Rectangle) (p : Point) : Point :=
  ⟨max r.xMin (min p.x r.xMax), max r.yMin (min p.y r.yMax)⟩

/-- Source: `isCoordinateInsideTheRect(dot, rect)` — a point is inside the
rectangle iff its distance to its orthogonal projection onto the rectangle
is zero. -/
def isCoordinateInsideTheRect (dot : Point) (rect : Rectangle) : Prop :=
  distSq dot (rect.orthoProjection dot) = 0

instance (dot : Point) (rect : Rectangle) :
    Decidable (isCoordinateInsideTheRect dot rect) := by
  unfold isCoordinateInsideTheRect; infer_instance

/-- Modelled from the spec: intersection point of two finite segments
(`src/utils/intersections`), by the standard parametric solve; parallel or
collinear segments yield no intersection point. -/
def segmentIntersection (s1 s2 : Segment) : Option Point :=
  let d1x := s1.B.x - s1.A.x
  let d1y := s1.B.y - s1.A.y
  let d2x := s2.B.x - s2.A.x
  let d2y := s2.B.y - s2.A.y
  let denom := d1x * d2y - d1y * d2x
  if denom = 0 then none
  else
    let t := ((s2.A.x - s1.A.x) * d2y - (s2.A.y - s1.A.y) * d2x) / denom
    let u := ((s2.A.x - s1.A.x) * d1y - (s2.A.y - s1.A.y) * d1x) / denom
    if 0 ≤ t ∧ t ≤ 1 ∧ 0 ≤ u ∧ u ≤ 1 then
      some ⟨s1.A.x + t * d1x, s1.A.y + t * d1y⟩
    else none

/-- Boundary edges of a rectangle, as four segments. -/
def Rectangle.edges (r : Rectangle) : List Segment :=
  [⟨⟨r.xMin, r.yMin⟩, ⟨r.xMax, r.yMin⟩⟩,
   ⟨⟨r.xMax, r.yMin⟩, ⟨r.xMax, r.yMax⟩⟩,
   ⟨⟨r.xMax, r.yMax⟩, ⟨r.xMin, r.yMax⟩⟩,
   ⟨⟨r.xMin, r.yMax⟩, ⟨r.xMin, r.yMin⟩⟩]

/-- Modelled from the spec: `getIntersections([rect, line])` of
`src/utils/intersections` — all intersection points between the segment and
the rectangle boundary. -/
def getIntersections (rect : Rectangle) (line : Segment) : List Point :=
  rect.edges.filterMap (fun e => segmentIntersection e line)

/-- Stable insertion of a point into a list ordered by distance to `c`
(strictly closer points go in front; on ties the new point stays behind,
matching the stable JS `Array.prototype.sort`). -/
def insertByDist (c x : Point) : List Point → List Point
  | [] => [x]
  | y :: ys => if distSq c x < distSq c y then x :: y :: ys else y :: insertByDist c x ys

/-- Stable sort of a point list by distance to `c`, modelling
`arr.sort((p1, p2) => distanceCoords(c, p1) - distanceCoords(c, p2))`. -/
def sortByDist (c : Point) (l : List Point) : List Point :=
  l.foldl (fun acc x => insertByDist c x acc) []

/-- Source: `getInnerSegment(start, end, rect)`.  The `end` parameter is
named `stop` because `end` is a keyword.  The intermediate `startSorted` list
models the in-place mutation of the `intersection` array by the first
`sort` call: the second `sort` call runs on the already-sorted array. -/
def getInnerSegment (start stop : Point) (rect : Rectangle) : Option Segment :=
  if isCoordinateInsideTheRect stop rect ∧ isCoordinateInsideTheRect start rect then
    some ⟨start, stop⟩
  else
    let line : Segment := ⟨start, stop⟩
    let intersection := getIntersections rect line
    if intersection = [] then none
    else
      let startSorted :=
        if isCoordinateInsideTheRect start rect then intersection
        else sortByDist start intersection
      let resultLineStart :=
        if isCoordinateInsideTheRect start rect then start
        else startSorted.headD start
      let resultLineEnd :=
        if isCoordinateInsideTheRect stop rect then stop
        else (sortByDist stop startSorted).headD stop
      some ⟨resultLineStart, resultLineEnd⟩

theorem mem_insertByDist (c x a : Point) (l : List Point) :
    a ∈ insertByDist c x l ↔ a = x ∨ a ∈ l := by
  induction l with
  | nil => simp [insertByDist]
  | cons y ys ih =>
    simp only [insertByDist]
    split
    · simp
    · simp [ih]; tauto

theorem mem_sortByDist_aux (c a : Point) (l acc : List Point) :
    a ∈ l.foldl (fun acc x => insertByDist c x acc) acc ↔ a ∈ acc ∨ a ∈ l := by
  induction l generalizing acc with
  | nil => simp
  | cons y ys ih =>
    simp only [List.foldl_cons, ih, mem_insertByDist, List.mem_cons]
    tauto

theorem mem_sortByDist (c a : Point) (l : List Point) :
    a ∈ sortByDist c l ↔ a ∈ l := by
  simp [sortByDist, mem_sortByDist_aux]

theorem pairwise_insertByDist (c x : Point) (l : List Point)
    (h : l.Pairwise (fun a b => distSq c a ≤ distSq c b)) :
    (insertByDist c x l).Pairwise (fun a b => distSq c a ≤ distSq c b) := by
  induction l with
  | nil => simp [insertByDist]
  | cons y ys ih =>
    rcases List.pairwise_cons.mp h with ⟨hy, hys⟩
    simp only [insertByDist]
    split
    · rename_i hlt
      refine List.pairwise_cons.mpr ⟨?_, h⟩
      intro b hb
      rcases List.mem_cons.mp hb with rfl | hb
      · exact le_of_lt hlt
      · exact le_trans (le_of_lt hlt) (hy b hb)
    · rename_i hnlt
      refine List.pairwise_cons.mpr ⟨?_, ih hys⟩
      intro b hb
      rcases (mem_insertByDist c x b ys).mp hb with rfl | hb
      · exact le_of_not_lt hnlt
      · exact hy b hb

theorem pairwise_sortByDist_aux (c : Point) (l acc : List Point)
    (h : acc.Pairwise (fun a b => distSq c a ≤ distSq c b)) :
    (l.foldl (fun acc x => insertByDist c x acc) acc).Pairwise
      (fun a b => distSq c a ≤ distSq c b) := by
  induction l generalizing acc with
  | nil => simpa
  | cons y ys ih => exact ih _ (pairwise_insertByDist c y acc h)

theorem pairwise_sortByDist (c : Point) (l : List Point) :
    (sortByDist c l).Pairwise (fun a b => distSq c a ≤ distSq c b) :=
  pairwise_sortByDist_aux c l [] (by simp)

theorem headD_sortByDist_mem (c d : Point) (l : List Point) (h : l ≠ []) :
    (sortByDist c l).headD d ∈ l := by
  have hne : sortByDist c l ≠ [] := by
    rcases List.exists_mem_of_ne_nil l h with ⟨a, ha⟩
    intro hnil
    have := (mem_sortByDist c a l).mpr ha
    simp [hnil] at this
  rcases hs : sortByDist c l with _ | ⟨b, bs⟩
  · exact absurd hs hne
  · have : b ∈ sortByDist c l := by simp [hs]
    simpa using (mem_sortByDist c b l).mp this

theorem headD_sortByDist_min (c d : Point) (l : List Point) :
    ∀ q ∈ l, distSq c ((sortByDist c l).headD d) ≤ distSq c q := by
  intro q hq
  have hqs : q ∈ sortByDist c l := (mem_sortByDist c q l).mpr hq
  have hp := pairwise_sortByDist c l
  rcases hs : sortByDist c l with _ | ⟨b, bs⟩
  · rw [hs] at hqs; simp at hqs
  · rw [hs] at hqs hp
    simp only [List.headD_cons]
    rcases List.mem_cons.mp hqs with rfl | hq2
    · exact le_refl _
    · exact (List.pairwise_cons.mp hp).1 q hq2

theorem sortByDist_ne_nil (c : Point) (l : List Point) (h : l ≠ []) :
    sortByDist c l ≠ [] := by
  rcases List.exists_mem_of_ne_nil l h with ⟨a, ha⟩
  intro hnil
  have := (mem_sortByDist c a l).mpr ha
  simp [hnil] at this

/-- Claim C1: if both endpoints of the segment lie inside the rectangle
(membership being zero distance to the orthogonal projection), `getInnerSegment`
returns the segment unchanged; and if at least one endpoint is outside and the
segment has no intersection with the rectangle boundary, it returns `none`
(nothing drawn). -/
theorem clip_keeps_inner_and_drops_disjoint (start stop : Point) (rect : Rectangle) :
    (isCoordinateInsideTheRect start rect ∧ isCoordinateInsideTheRect stop rect →
      getInnerSegment start stop rect = some ⟨start, stop⟩)
    ∧ (¬(isCoordinateInsideTheRect start rect ∧ isCoordinateInsideTheRect stop rect) →
        getIntersections rect ⟨start, stop⟩ = [] →
        getInnerSegment start stop rect = none) := by
  constructor
  · intro h
    simp only [getInnerSegment]
    rw [if_pos ⟨h.2, h.1⟩]
  · intro h hI
    simp only [getInnerSegment]
    rw [if_neg (fun hc => h ⟨hc.2, hc.1⟩)]
    simp [hI]

/-- Witness for C1: inside the rectangle `(0,0)-(10,10)` the segment
`(1,1)-(2,2)` is returned unchanged, and the fully outside segment
`(20,20)-(30,30)` yields `none`. -/
theorem clip_keeps_inner_and_drops_disjoint_witness :
    getInnerSegment ⟨1, 1⟩ ⟨2, 2⟩ ⟨⟨0, 0⟩, ⟨10, 10⟩⟩ = some ⟨⟨1, 1⟩, ⟨2, 2⟩⟩
    ∧ getInnerSegment ⟨20, 20⟩ ⟨30, 30⟩ ⟨⟨0, 0⟩, ⟨10, 10⟩⟩ = none :=
  ⟨(clip_keeps_inner_and_drops_disjoint ⟨1, 1⟩ ⟨2, 2⟩ ⟨⟨0, 0⟩, ⟨10, 10⟩⟩).1
     (by norm_num [isCoordinateInsideTheRect, Rectangle.orthoProjection, Rectangle.xMin,
       Rectangle.xMax, Rectangle.yMin, Rectangle.yMax, distSq]),
   (clip_keeps_inner_and_drops_disjoint ⟨20, 20⟩ ⟨30, 30⟩ ⟨⟨0, 0⟩, ⟨10, 10⟩⟩).2
     (by norm_num [isCoordinateInsideTheRect, Rectangle.orthoProjection, Rectangle.xMin,
       Rectangle.xMax, Rectangle.yMin, Rectangle.yMax, distSq])
     (by norm_num [getIntersections, Rectangle.edges, segmentIntersection, Rectangle.xMin,
       Rectangle.xMax, Rectangle.yMin, Rectangle.yMax, List.filterMap])⟩

/-- Claim C2: when at least one endpoint is outside and the boundary
intersection set is non-empty, `getInnerSegment` keeps each inside endpoint
as-is and replaces each outside endpoint with an intersection point at minimal
distance from that endpoint (the first minimal candidate of the scanned list);
in particular, with a single boundary intersection and an inside start, the
result is the inside endpoint together with that single intersection point. -/
theorem clip_replaces_outside_endpoint_with_nearest (start stop : Point) (rect : Rectangle)
    (hni : ¬(isCoordinateInsideTheRect stop rect ∧ isCoordinateInsideTheRect start rect))
    (hne : getIntersections rect ⟨start, stop⟩ ≠ []) :
    (∃ seg, getInnerSegment start stop rect = some seg
      ∧ (isCoordinateInsideTheRect start rect → seg.A = start)
      ∧ (isCoordinateInsideTheRect stop rect → seg.B = stop)
      ∧ (¬isCoordinateInsideTheRect start rect →
          seg.A ∈ getIntersections rect ⟨start, stop⟩ ∧
          ∀ q ∈ getIntersections rect ⟨start, stop⟩, distSq start seg.A ≤ distSq start q)
      ∧ (¬isCoordinateInsideTheRect stop rect →
          seg.B ∈ getIntersections rect ⟨start, stop⟩ ∧
          ∀ q ∈ getIntersections rect ⟨start, stop⟩, distSq stop seg.B ≤ distSq stop q))
    ∧ (∀ p, getIntersections rect ⟨start, stop⟩ = [p] →
        isCoordinateInsideTheRect start rect → ¬isCoordinateInsideTheRect stop rect →
        getInnerSegment start stop rect = some ⟨start, p⟩) := by
  constructor
  · by_cases hs : isCoordinateInsideTheRect start rect <;>
      by_cases he : isCoordinateInsideTheRect stop rect
    · exact absurd ⟨he, hs⟩ hni
    · refine ⟨⟨start, (sortByDist stop (getIntersections rect ⟨start, stop⟩)).headD stop⟩,
        ?_, fun _ => rfl, fun h => absurd h he, fun h => absurd hs h, fun _ => ?_⟩
      · simp [getInnerSegment, hs, he, hne]
      · exact ⟨headD_sortByDist_mem stop stop _ hne,
          headD_sortByDist_min stop stop _⟩
    · refine ⟨⟨(sortByDist start (getIntersections rect ⟨start, stop⟩)).headD start, stop⟩,
        ?_, fun h => absurd h hs, fun _ => rfl, fun _ => ?_, fun h => absurd he h⟩
      · simp [getInnerSegment, hs, he, hne]
      · exact ⟨headD_sortByDist_mem start start _ hne,
          headD_sortByDist_min start start _⟩
    · have hne2 : sortByDist start (getIntersections rect ⟨start, stop⟩) ≠ [] :=
        sortByDist_ne_nil start _ hne
      refine ⟨⟨(sortByDist start (getIntersections rect ⟨start, stop⟩)).headD start,
        (sortByDist stop (sortByDist start (getIntersections rect ⟨start, stop⟩))).headD stop⟩,
        ?_, fun h => absurd h hs, fun h => absurd h he, fun _ => ?_, fun _ => ?_⟩
      · simp [getInnerSegment, hs, he, hne]
      · exact ⟨headD_sortByDist_mem start start _ hne,
          headD_sortByDist_min start start _⟩
      · constructor
        · have hmem := headD_sortByDist_mem stop stop _ hne2
          exact (mem_sortByDist start _ _).mp hmem
        · intro q hq
          exact headD_sortByDist_min stop stop _ q ((mem_sortByDist start q _).mpr hq)
  · intro p hp hs he
    simp [getInnerSegment, hs, he, hp, sortByDist, insertByDist]

/-- Witness for C2: the segment `(5,5)-(15,5)` crosses the right edge of the
rectangle `(0,0)-(10,10)` exactly once, at `(10,5)`; the clipped segment keeps
the inside start `(5,5)` and ends at the intersection point. -/
theorem clip_replaces_outside_endpoint_with_nearest_witness :
    getInnerSegment ⟨5, 5⟩ ⟨15, 5⟩ ⟨⟨0, 0⟩, ⟨10, 10⟩⟩ = some ⟨⟨5, 5⟩, ⟨10, 5⟩⟩ :=
  (clip_replaces_outside_endpoint_with_nearest ⟨5, 5⟩ ⟨15, 5⟩ ⟨⟨0, 0⟩, ⟨10, 10⟩⟩
    (by norm_num [isCoordinateInsideTheRect, Rectangle.orthoProjection, Rectangle.xMin,
      Rectangle.xMax, Rectangle.yMin, Rectangle.yMax, distSq])
    (by norm_num [getIntersections, Rectangle.edges, segmentIntersection, Rectangle.xMin,
      Rectangle.xMax, Rectangle.yMin, Rectangle.yMax, List.filterMap])).2 ⟨10, 5⟩
    (by norm_num [getIntersections, Rectangle.edges, segmentIntersection, Rectangle.xMin,
      Rectangle.xMax, Rectangle.yMin, Rectangle.yMax, List.filterMap])
    (by norm_num [isCoordinateInsideTheRect, Rectangle.orthoProjection, Rectangle.xMin,
      Rectangle.xMax, Rectangle.yMin, Rectangle.yMax, distSq])
    (by norm_num [isCoordinateInsideTheRect, Rectangle.orthoProjection, Rectangle.xMin,
      Rectangle.xMax, Rectangle.yMin, Rectangle.yMax, distSq])

/-- Source: the `normalizePoint` helper of the `path` runner — converts a
global point back to the path's origin coordinates. -/
def normalizePoint (basePoint p : Point) : Point := ⟨p.x - basePoint.x, p.y - basePoint.y⟩

/-- Source: the `handlePath(currentPoint, command, params)` helper of the
`path` runner.  `svgRect` and `basePoint` are the closure context.  The
emitted command text is modelled structurally as a list of
(letter, parameters) pairs instead of a string; `params[0]`/`params[1]` are
modelled with default `0` (out-of-range access is undefined in JS and is not
exercised by well-formed path data). -/
def handlePath (svgRect : Rectangle) (basePoint currentPoint : Point)
    (command : Char) (params : List ℚ) : Point × List (Char × List ℚ) :=
  if command = 'm' ∨ command = 'M' then
    let nextPoint : Point := ⟨basePoint.x + params.getD 0 0, basePoint.y + params.getD 1 0⟩
    (nextPoint, [(command, [params.getD 0 0, params.getD 1 0])])
  else if command = 'l' ∨ command = 'L' then
    let isLocalInstruction := command = 'l'
    let nextPoint : Point :=
      ⟨(if isLocalInstruction then currentPoint.x else basePoint.x) + params.getD 0 0,
       (if isLocalInstruction then currentPoint.y else basePoint.y) + params.getD 1 0⟩
    let normalizedNext := normalizePoint basePoint nextPoint
    match getInnerSegment currentPoint nextPoint svgRect with
    | none =>
        (nextPoint,
         [('M', if isLocalInstruction then [normalizedNext.x, normalizedNext.y]
                else [params.getD 0 0, params.getD 1 0])])
    | some result =>
        let endPoint := normalizePoint basePoint result.B
        let startPoint := normalizePoint basePoint result.A
        let startInstruction : List (Char × List ℚ) :=
          if result.A = currentPoint then [] else [('M', [startPoint.x, startPoint.y])]
        let endInstruction : List (Char × List ℚ) :=
          if result.B = nextPoint then []
          else if isLocalInstruction then [('M', [normalizedNext.x, normalizedNext.y])]
          else [('M', [params.getD 0 0, params.getD 1 0])]
        (nextPoint, startInstruction ++ [('L', [endPoint.x, endPoint.y])] ++ endInstruction)
  else
    (currentPoint, [(command, params)])

/-- Claim C3: for an `l` or `L` path command the point handed back for
anchoring subsequent commands is always the original (pre-clip) endpoint of
the segment — relative (`l`) commands advance from the current point,
absolute (`L`) commands from the path origin — regardless of whether the
clipped segment was emitted unchanged, shortened, or dropped entirely. -/
theorem path_line_returns_original_endpoint (svgRect : Rectangle)
    (basePoint currentPoint : Point) (p0 p1 : ℚ) :
    (handlePath svgRect basePoint currentPoint 'l' [p0, p1]).1
      = ⟨currentPoint.x + p0, currentPoint.y + p1⟩
    ∧ (handlePath svgRect basePoint currentPoint 'L' [p0, p1]).1
      = ⟨basePoint.x + p0, basePoint.y + p1⟩ := by
  constructor <;>
  · simp +decide [handlePath]
    split <;> simp

/-- Source: the `Position` interface (a pair of coordinates `x`, `y`). -/
structure Position (α : Type) where
  x : α
  y : α

/-- Source: the `Size` interface (a pair `width`, `height`). -/
structure Size (α : Type) where
  width : α
  height : α

/-- Source: the `SVGSizeConverter` interface — a pair of pure coordinate
mapping functions. -/
structure SVGSizeConverter (α : Type) where
  point : α → α → Position α
  size : α → α → Size α

/-- Modelled from the spec: `degreesToRadians` of the rotations module
(angles in degrees converted to radians before use). -/
noncomputable def degreesToRadians (angle : ℝ) : ℝ := (angle * Real.pi) / 180

/-- Termination measure for `transform`: the shorthand instructions and the
centered rotation delegate once to the plain instructions. -/
def transformMeasure (name : String) (args : List ℝ) : ℕ :=
  if name = "scaleX" ∨ name = "scaleY" ∨ name = "translateX" ∨ name = "translateY" then 1
  else if name = "rotate" ∧ 1 < args.length then 1
  else 0

/-- Source: `transform(converter, name, args)` — extends a coordinate
converter by one transform instruction.  The JS destructuring defaults are
modelled with `headD`/`getD` (a missing argument, `undefined` in JS, would
poison the converter with `NaN` and is not exercised by the claims). -/
noncomputable def transform (converter : SVGSizeConverter ℝ) (name : String) (args : List ℝ) :
    SVGSizeConverter ℝ :=
  if name = "scaleX" then transform converter "scale" [args.headD 0, 0]
  else if name = "scaleY" then transform converter "scale" [0, args.headD 0]
  else if name = "scale" then
    { point := fun x y => converter.point (x * args.headD 0) (y * args.getD 1 (args.headD 0)),
      size := fun w h => converter.size (w * args.headD 0) (h * args.getD 1 (args.headD 0)) }
  else if name = "translateX" then transform converter "translate" [args.headD 0, 0]
  else if name = "translateY" then transform converter "translate" [0, args.headD 0]
  else if name = "translate" then
    { point := fun x y => converter.point (x + args.headD 0) (y + args.getD 1 (args.headD 0)),
      size := converter.size }
  else if name = "rotate" then
    if _h : 1 < args.length then
      transform (transform (transform converter "translate"
        [-(args.getD 1 0), -(args.getD 2 (args.getD 1 0))]) "rotate" [args.headD 0])
        "translate" [args.getD 1 0, args.getD 2 (args.getD 1 0)]
    else
      { point := fun x y =>
          converter.point
            (x * Real.cos (degreesToRadians (args.headD 0)) -
              y * Real.sin (degreesToRadians (args.headD 0)))
            (y * Real.cos (degreesToRadians (args.headD 0)) +
              x * Real.sin (degreesToRadians (args.headD 0))),
        size := fun w h =>
          converter.size
            (w * Real.cos (degreesToRadians (args.headD 0)) -
              h * Real.sin (degreesToRadians (args.headD 0)))
            (h * Real.cos (degreesToRadians (args.headD 0)) +
              w * Real.sin (degreesToRadians (args.headD 0))) }
  else if name = "skewX" then
    { point := fun x y => converter.point ((1 + x) * Real.tan (degreesToRadians (args.headD 0))) y,
      size := converter.size }
  else if name = "skewY" then
    { point := fun x y => converter.point x ((1 + y) * Real.tan (degreesToRadians (args.headD 0))),
      size := converter.size }
  else converter
termination_by transformMeasure name args
decreasing_by
  all_goals simp_all [transformMeasure]

/-- Claim C4: a centered rotation instruction composes onto a converter
exactly as the sequence translate(-cx,-cy), rotate(a), translate(cx,cy)
composed onto it (with a two-argument form defaulting cy to cx), and an
uncentered rotation applies the standard 2D rotation matrix, with the angle
converted from degrees to radians, to both the point and the size inputs
before delegating to the prior converter. -/
theorem transform_rotate_center_decomposes (C : SVGSizeConverter ℝ) (a cx cy : ℝ) :
    transform C "rotate" [a, cx, cy]
      = transform (transform (transform C "translate" [-cx, -cy]) "rotate" [a])
          "translate" [cx, cy]
    ∧ transform C "rotate" [a, cx] = transform C "rotate" [a, cx, cx]
    ∧ (transform C "rotate" [a]).point
      = (fun x y =>
          C.point (x * Real.cos (degreesToRadians a) - y * Real.sin (degreesToRadians a))
            (y * Real.cos (degreesToRadians a) + x * Real.sin (degreesToRadians a)))
    ∧ (transform C "rotate" [a]).size
      = (fun w h =>
          C.size (w * Real.cos (degreesToRadians a) - h * Real.sin (degreesToRadians a))
            (h * Real.cos (degreesToRadians a) + w * Real.sin (degreesToRadians a))) := by
  refine ⟨?_, ?_, ?_, ?_⟩
  · rw [transform]
    simp +decide
  · conv_lhs => rw [transform]
    conv_rhs => rw [transform]
    simp +decide
  · conv_lhs => rw [transform]
    simp +decide
  · conv_lhs => rw [transform]
    simp +decide

/-- Claim C8: a transform instruction whose name is not one of the supported
instruction names leaves the converter unchanged (a logged no-op, never
fatal). -/
theorem transform_unknown_name_is_noop (C : SVGSizeConverter ℝ) (name : String)
    (args : List ℝ)
    (h : name ∉ ["scaleX", "scaleY", "scale", "translateX", "translateY", "translate",
      "rotate", "skewX", "skewY"]) :
    transform C name args = C := by
  simp only [List.mem_cons, List.mem_singleton, not_or] at h
  obtain ⟨h1, h2, h3, h4, h5, h6, h7, h8, h9, -⟩ := h
  rw [transform]
  simp [h1, h2, h3, h4, h5, h6, h7, h8, h9]

/-- Identity converter, used to witness converter-level theorems at a
concrete input. -/
def identityConverter : SVGSizeConverter ℝ :=
  { point := fun x y => ⟨x, y⟩, size := fun w h => ⟨w, h⟩ }

/-- Witness for C8: the unsupported `matrix` instruction leaves the identity
converter unchanged. -/
theorem transform_unknown_name_is_noop_witness :
    transform identityConverter "matrix" [1, 2, 3, 4, 5, 6] = identityConverter :=
  transform_unknown_name_is_noop identityConverter "matrix" [1, 2, 3, 4, 5, 6] (by decide)

/-- Source: the `Box` type (`Position & Size`). -/
structure Box (α : Type) where
  x : α
  y : α
  width : α
  height : α
deriving DecidableEq, Repr

/-- Source: `getFittingRectangle(originalWidth, originalHeight, targetWidth,
targetHeight, preserveAspectRatio)` — the fitted sub-rectangle of the target
box.  The aspect-ratio token is `par` (an `Option`, as the JS parameter may
be `undefined`); the ratio locals are named `ratioOriginal`/`ratioTarget`
(`originalRatio`/`targetRatio` in the source).  The `switch` on the token is
rendered as an equality chain; `xMidYMid` falls through to the default arm
exactly as in the source. -/
def getFittingRectangle (originalWidth originalHeight targetWidth targetHeight : ℚ)
    (par : Option String) : Box ℚ :=
  if par = some "none" then ⟨0, 0, targetWidth, targetHeight⟩
  else
    let ratioOriginal := originalWidth / originalHeight
    let ratioTarget := targetWidth / targetHeight
    let width := if ratioTarget > ratioOriginal then ratioOriginal * targetHeight else targetWidth
    let height := if ratioTarget ≥ ratioOriginal then targetHeight else targetWidth / ratioOriginal
    let dx := targetWidth - width
    let dy := targetHeight - height
    let xy : ℚ × ℚ :=
      if par = some "xMinYMin" then (0, 0)
      else if par = some "xMidYMin" then (dx / 2, 0)
      else if par = some "xMaxYMin" then (dx, dy / 2)
      else if par = some "xMinYMid" then (0, dy)
      else if par = some "xMaxYMid" then (dx, dy / 2)
      else if par = some "xMinYMax" then (0, dy)
      else if par = some "xMidYMax" then (dx / 2, dy)
      else if par = some "xMaxYMax" then (dx, dy)
      else (dx / 2, dy / 2)
    ⟨xy.1, xy.2, width, height⟩

/-- Claim C5: with token `none` the fitting operation returns the target box
unchanged; an unrecognized or absent token behaves as the centered
`xMidYMid` alignment; for an intrinsic 100×50 box fit into a 200×200 target,
`none` yields the unstretched target box and the default alignment yields
the centered 200×100 box. -/
theorem fitting_none_unchanged_and_default_centered
    (ow oh tw th : ℚ) (t : String)
    (ht : t ∉ ["none", "xMinYMin", "xMidYMin", "xMaxYMin", "xMinYMid", "xMidYMid",
      "xMaxYMid", "xMinYMax", "xMidYMax", "xMaxYMax"]) :
    getFittingRectangle ow oh tw th (some "none") = ⟨0, 0, tw, th⟩
    ∧ getFittingRectangle ow oh tw th (some t)
        = getFittingRectangle ow oh tw th (some "xMidYMid")
    ∧ getFittingRectangle ow oh tw th none
        = getFittingRectangle ow oh tw th (some "xMidYMid")
    ∧ getFittingRectangle 100 50 200 200 (some "none") = ⟨0, 0, 200, 200⟩
    ∧ getFittingRectangle 100 50 200 200 none = ⟨0, 50, 200, 100⟩ := by
  simp only [List.mem_cons, List.mem_singleton, not_or] at ht
  obtain ⟨h1, h2, h3, h4, h5, h6, h7, h8, h9, h10, -⟩ := ht
  refine ⟨by simp [getFittingRectangle], ?_, ?_, ?_, ?_⟩
  · simp +decide [getFittingRectangle, h1, h2, h3, h4, h5, h6, h7, h8, h9, h10]
  · simp +decide [getFittingRectangle]
  · norm_num +decide [getFittingRectangle]
  · norm_num +decide [getFittingRectangle]

/-- Witness for C5: the unrecognized token `zzz` behaves as `xMidYMid`, and
the default alignment centers the 100×50 box in the 200×200 target. -/
theorem fitting_none_unchanged_and_default_centered_witness :
    getFittingRectangle 100 50 200 200 (some "zzz")
        = getFittingRectangle 100 50 200 200 (some "xMidYMid")
    ∧ getFittingRectangle 100 50 200 200 none = ⟨0, 50, 200, 100⟩ :=
  ⟨(fitting_none_unchanged_and_default_centered 100 50 200 200 "zzz" (by decide)).2.1,
   (fitting_none_unchanged_and_default_centered 100 50 200 200 "zzz" (by decide)).2.2.2.2⟩

/-- Claim C6 fails on the code: the alignment offsets for `xMaxYMin` and
`xMinYMid` do not follow the claimed 0 / one-half / 1 per-axis factors.  For
the intrinsic 100×50 box in the 200×200 target (`dx = 0`, `dy = 100`), the
claimed factors give y-offset `0` for `xMaxYMin` and `dy/2 = 50` for
`xMinYMid`, but the code returns `[dx, dy/2]` (y = 50) and `[0, dy]`
(y = 100) respectively — copy-paste slips from the neighbouring `xMaxYMid`
and `xMinYMax` arms. -/
theorem fitting_alignment_slip_xMaxYMin_xMinYMid :
    getFittingRectangle 100 50 200 200 (some "xMaxYMin") = ⟨0, 50, 200, 100⟩
    ∧ getFittingRectangle 100 50 200 200 (some "xMinYMid") = ⟨0, 100, 200, 100⟩ := by
  constructor <;> norm_num +decide [getFittingRectangle]

/-- Source: the stroke-width finalization step of `parseAttributes`
(`if (newInherited.strokeWidth) { ... Math.max(Math.min(...), 1) }`).
JS truthiness of the resolved number is modelled by the `some`/zero tests:
an absent or zero stroke width skips the conversion-and-clamp step. -/
def finalizeStrokeWidth {α : Type} [LinearOrderedField α] [DecidableEq α]
    (newConverter : SVGSizeConverter α) (strokeWidth : Option α) : Option α :=
  match strokeWidth with
  | none => none
  | some w =>
      if w = 0 then some w
      else
        some (max (min |(newConverter.size w w).width| |(newConverter.size w w).height|) 1)

/-- Identity converter over the rationals, used for concrete evaluations. -/
def identityConverterQ : SVGSizeConverter ℚ :=
  { point := fun x y => ⟨x, y⟩, size := fun w h => ⟨w, h⟩ }

/-- Claim C7 amended: for every element whose cascade resolves a nonzero
stroke width, the resolved width is the size-converted width clamped to
`max(min(|width_x|, |width_y|), 1)`, hence never below one unit.  (The
unamended claim fails when the cascade resolves stroke width `0`: JS
truthiness skips the clamp and the resolved width stays `0`.) -/
theorem resolved_stroke_width_clamped {α : Type} [LinearOrderedField α] [DecidableEq α]
    (conv : SVGSizeConverter α) (w : α) (hw : w ≠ 0) :
    finalizeStrokeWidth conv (some w)
      = some (max (min |(conv.size w w).width| |(conv.size w w).height|) 1)
    ∧ ∀ v, finalizeStrokeWidth conv (some w) = some v → 1 ≤ v := by
  refine ⟨by simp [finalizeStrokeWidth, hw], ?_⟩
  intro v hv
  simp only [finalizeStrokeWidth, if_neg hw, Option.some_inj] at hv
  rw [← hv]
  exact le_max_right _ _

/-- Witness for the amended C7: with the identity converter a stroke width
of 5 resolves to `max(min(5, 5), 1) = 5 ≥ 1`. -/
theorem resolved_stroke_width_clamped_witness :
    finalizeStrokeWidth identityConverterQ (some 5)
      = some (max (min |(identityConverterQ.size 5 5).width|
          |(identityConverterQ.size 5 5).height|) 1)
    ∧ ∀ v, finalizeStrokeWidth identityConverterQ (some 5) = some v → 1 ≤ v :=
  resolved_stroke_width_clamped identityConverterQ 5 (by norm_num)

/-- Counterexample to C7 as stated: a cascade-resolved stroke width of `0`
is falsy in JS, so the conversion-and-clamp step is skipped entirely and the
resolved width stays `0`, below one unit and different from the claimed
`max(min(|width_x|, |width_y|), 1) = 1`. -/
theorem resolved_stroke_width_zero_escapes_clamp :
    finalizeStrokeWidth identityConverterQ (some 0) = some 0
    ∧ finalizeStrokeWidth identityConverterQ (some 0)
        ≠ some (max (min |(identityConverterQ.size 0 0).width|
            |(identityConverterQ.size 0 0).height|) 1) := by
  constructor <;> norm_num [finalizeStrokeWidth, identityConverterQ]

/-- Source: the coordinate-pair rewrite of the `d`-attribute processing in
`parseAttributes` (the `l|t|m|q|c` regex replacement): a lowercase command
maps each pair through `converter.size` and emits `[dx, -dy]`; an uppercase
command maps it through `converter.point` and emits the offset from the
converted origin `converter.point(0, 0)` without negation. -/
def rewritePathCoordPair {α : Type} [Field α] (converter : SVGSizeConverter α)
    (isLowercase : Bool) (xReal yReal : α) : α × α :=
  if isLowercase then
    ((converter.size xReal yReal).width, -(converter.size xReal yReal).height)
  else
    ((converter.point xReal yReal).x - (converter.point 0 0).x,
     (converter.point xReal yReal).y - (converter.point 0 0).y)

/-- Source: one `l|t|m|q|c` command of the `d` rewrite — every coordinate
pair of the command is rewritten by `rewritePathCoordPair` according to the
case of the command letter. -/
def rewritePathCommand {α : Type} [Field α] (converter : SVGSizeConverter α)
    (letter : Char) (pairs : List (α × α)) : Char × List (α × α) :=
  (letter, pairs.map fun pr => rewritePathCoordPair converter letter.isLower pr.1 pr.2)

/-- Claim C9: in the path-data rewrite of the `l,t,m,q,c` commands, every
relative (lowercase) coordinate pair goes through the converter's size
mapping and is emitted as `(dx, -dy)`, while every absolute (uppercase) pair
goes through the point mapping relative to the converted origin and is
emitted without negation. -/
theorem path_pairs_relative_negated_absolute_anchored {α : Type} [Field α]
    (converter : SVGSizeConverter α) (letter : Char) (pairs : List (α × α))
    (_hl : letter ∈ ['l', 't', 'm', 'q', 'c', 'L', 'T', 'M', 'Q', 'C']) :
    (letter.isLower = true →
      (rewritePathCommand converter letter pairs).2
        = pairs.map fun pr =>
            ((converter.size pr.1 pr.2).width, -(converter.size pr.1 pr.2).height))
    ∧ (letter.isLower = false →
      (rewritePathCommand converter letter pairs).2
        = pairs.map fun pr =>
            ((converter.point pr.1 pr.2).x - (converter.point 0 0).x,
             (converter.point pr.1 pr.2).y - (converter.point 0 0).y)) := by
  constructor <;> intro h <;> simp [rewritePathCommand, rewritePathCoordPair, h]

/-- Witness for C9: the pair `(3, 4)` of a relative `l` command and of an
absolute `M` command, rewritten through the identity converter. -/
theorem path_pairs_relative_negated_absolute_anchored_witness :
    (rewritePathCommand identityConverterQ 'l' [(3, 4)]).2
      = [(3, 4)].map (fun pr =>
          ((identityConverterQ.size pr.1 pr.2).width,
           -(identityConverterQ.size pr.1 pr.2).height))
    ∧ (rewritePathCommand identityConverterQ 'M' [(3, 4)]).2
      = [(3, 4)].map (fun pr =>
          ((identityConverterQ.point pr.1 pr.2).x - (identityConverterQ.point 0 0).x,
           (identityConverterQ.point pr.1 pr.2).y - (identityConverterQ.point 0 0).y)) :=
  ⟨(path_pairs_relative_negated_absolute_anchored identityConverterQ 'l' [(3, 4)]
      (by decide)).1 (by decide),
   (path_pairs_relative_negated_absolute_anchored identityConverterQ 'M' [(3, 4)]
      (by decide)).2 (by decide)⟩

/-- Value of a decimal digit string (most significant first). -/
def digitsVal (cs : List Char) : ℕ :=
  cs.foldl (fun n c => 10 * n + (c.toNat - '0'.toNat)) 0

/-- Value of a decimal fraction-digit string (digits after the point). -/
def fracVal (cs : List Char) : ℚ :=
  cs.foldr (fun c acc => (((c.toNat - '0'.toNat : ℕ) : ℚ) + acc) / 10) 0

/-- Source: JS `parseFloat` as used on transform arguments — parses a
leading optional minus sign, integer digits and an optional fraction;
`none` models `NaN`.  (Exponent notation and a leading plus sign are not
exercised by the claims and are outside the model.) -/
def parseFloatJS (s : String) : Option ℚ :=
  let cs := s.toList
  let isNeg := cs.headD ' ' = '-'
  let cs1 := if isNeg then cs.tail else cs
  let intPart := cs1.takeWhile Char.isDigit
  let rest := cs1.dropWhile Char.isDigit
  let fracPart := if rest.headD ' ' = '.' then rest.tail.takeWhile Char.isDigit else []
  if intPart = [] ∧ fracPart = [] then none
  else
    let v : ℚ := (digitsVal intPart : ℚ) + fracVal fracPart
    some (if isNeg then -v else v)

/-- Source: JS `parseInt(d, 10)` — parses an optional minus sign and the
leading run of digits, truncating at the first non-digit; `none` models
`NaN`. -/
def parseIntJS (s : String) : Option ℤ :=
  let cs := s.toList
  let isNeg := cs.headD ' ' = '-'
  let cs1 := if isNeg then cs.tail else cs
  let digits := cs1.takeWhile Char.isDigit
  if digits = [] then none
  else some (if isNeg then -(digitsVal digits : ℤ) else (digitsVal digits : ℤ))

/-- Match of the numeral regex (optional minus; digits with optional point
and fraction digits, or a point with fraction digits) at the head of the
character list, as used on the rotate/skewX/skewY/scale attribute values. -/
def matchNumAt (cs : List Char) : Option (List Char) :=
  let isNeg := cs.headD ' ' = '-'
  let sign : List Char := if isNeg then ['-'] else []
  let cs1 := if isNeg then cs.tail else cs
  if (cs1.headD ' ').isDigit then
    let d1 := cs1.takeWhile Char.isDigit
    let r1 := cs1.dropWhile Char.isDigit
    if r1.headD ' ' = '.' then some (sign ++ d1 ++ ['.'] ++ r1.tail.takeWhile Char.isDigit)
    else some (sign ++ d1)
  else if cs1.headD ' ' = '.' then
    some (sign ++ ['.'] ++ cs1.tail.takeWhile Char.isDigit)
  else none

/-- Leftmost match of the numeral regex in the character list. -/
def matchFirstNumAux : List Char → Option (List Char)
  | [] => none
  | c :: rest =>
      match matchNumAt (c :: rest) with
      | some t => some t
      | none => matchFirstNumAux rest

/-- Source: `value.match(...)?.[0]` with the numeral regex — the first
numeral substring of the attribute value, if any. -/
def matchFirstNumber (s : String) : Option String :=
  (matchFirstNumAux s.toList).map fun cs => String.mk cs

/-- Word character of the transform-list regex (alphanumeric or
underscore). -/
def isWordChar (c : Char) : Bool := c.isAlphanum || c = '_'

/-- Scanner for the global transform-instruction regex (a word-character
name, an opening parenthesis, a shortest non-empty argument text, a closing
parenthesis), returning the (name, raw argument text) pairs in match order.
Fueled by the remaining length; each step either emits the leftmost match
and continues after it or advances one character. -/
def findInstrsAux : ℕ → List Char → List (String × String)
  | 0, _ => []
  | _, [] => []
  | fuel + 1, c :: rest =>
      let cs := c :: rest
      let w := cs.takeWhile isWordChar
      let afterW := cs.dropWhile isWordChar
      if w ≠ [] ∧ afterW.headD ' ' = '(' then
        let inner := afterW.tail
        let content := inner.takeWhile (fun ch => ch ≠ ')')
        let afterContent := inner.dropWhile (fun ch => ch ≠ ')')
        if content ≠ [] ∧ afterContent ≠ [] then
          (String.mk w, String.mk content) :: findInstrsAux fuel afterContent.tail
        else findInstrsAux fuel rest
      else findInstrsAux fuel rest

/-- Source: the `while ((parsed = regexTransform.exec(transformList)))` loop
of `parseAttributes` — all `name(args)` instruction matches of the transform
list, in order. -/
def parseInstrPairs (s : String) : List (String × String) :=
  findInstrsAux s.toList.length s.toList

/-- Splitter for raw argument text on blanks and commas. -/
def splitArgsAux : List Char → List Char → List String
  | [], acc => [String.mk acc.reverse]
  | c :: rest, acc =>
      if c = ' ' ∨ c = ',' then String.mk acc.reverse :: splitArgsAux rest []
      else splitArgsAux rest (c :: acc)

/-- Source: `rawArgs.split(separator regex).filter(nonempty)` — the argument
tokens of one transform instruction. -/
def splitArgsJS (s : String) : List String :=
  (splitArgsAux s.toList []).filter fun t => t ≠ ""

/-- Source: `args = rawArgs.split(...).filter(...).map(parseFloat)` — the
numeric arguments handed to `transform` (an unparsable token, `NaN` in JS,
is outside the model and dropped). -/
noncomputable def parseTransformArgs (rawArgs : String) : List ℝ :=
  ((splitArgsJS rawArgs).filterMap parseFloatJS).map fun q => (q : ℝ)

/-- Source: the instruction-application loop of `parseAttributes`
(`newConverter = transform(newConverter, name, args)` over the regex
matches). -/
noncomputable def applyTransformInstrs (instrs : List (String × String))
    (converter : SVGSizeConverter ℝ) : SVGSizeConverter ℝ :=
  instrs.foldl (fun conv instr => transform conv instr.1 (parseTransformArgs instr.2)) converter

/-- Source: the direct presentation attributes handled by the transform
block of `parseAttributes`, each an optional raw string value. -/
structure DirectAttrs where
  translate : Option String := none
  translateX : Option String := none
  translateY : Option String := none
  skewX : Option String := none
  skewY : Option String := none
  rotate : Option String := none
  scale : Option String := none
  scaleX : Option String := none
  scaleY : Option String := none
  transform : Option String := none

/-- Source: the body of the `forEach` over the shorthand attribute names —
`if (attributes[name]) transformList = attributes[name] + ' ' + transformList`. -/
def prependStep (acc : String) (v : Option String) : String :=
  match v with
  | some s => s ++ " " ++ acc
  | none => acc

/-- Source: `transformList = attributes.transform || ''` followed by the
`forEach` over the shorthand attribute names, each prepending
`attributes[name] + ' '` to the list. -/
def buildTransformList (a : DirectAttrs) : String :=
  [a.translate, a.translateX, a.translateY, a.skewX, a.skewY, a.rotate, a.scale,
    a.scaleX, a.scaleY].foldl prependStep (a.transform.getD "")

/-- Source: the numeric-field extraction for rotate/skewX/skewY/scale —
first numeral of the raw attribute value, put through `parseInt` (the
`Degrees` wrapper carries the integer angle). -/
def extractAngle (v : Option String) : Option ℤ :=
  v.bind fun s => (matchFirstNumber s).bind parseIntJS

/-- Source: the rotate/skewX/skewY/scale fields of `svgAttributes` produced
by `parseAttributes`. -/
structure ResolvedRotSkewScale where
  rotate : Option ℤ
  skewX : Option ℤ
  skewY : Option ℤ
  scale : Option ℤ

def resolveRotSkewScale (a : DirectAttrs) : ResolvedRotSkewScale :=
  { rotate := extractAngle a.rotate
    skewX := extractAngle a.skewX
    skewY := extractAngle a.skewY
    scale := extractAngle a.scale }

/-- Source: the rotation/skew options of the `rect` runner's
`page.drawRectangle` call. -/
structure RectDrawOptions where
  rotate : Option ℤ
  xSkew : Option ℤ
  ySkew : Option ℤ

/-- Source: the `rect` runner forwards the resolved rotate/skewX/skewY
fields unmodified as `rotate`/`xSkew`/`ySkew`. -/
def rectRunnerForward (e : ResolvedRotSkewScale) : RectDrawOptions :=
  { rotate := e.rotate, xSkew := e.skewX, ySkew := e.skewY }

/-- Source: the scale/rotation options of the `path` runner's
`page.drawSvgPath` call. -/
structure PathDrawOptions where
  scale : Option ℤ
  rotate : Option ℤ

/-- Source: the `path` runner forwards the resolved scale and rotate fields
unmodified as `scale`/`rotate`. -/
def pathRunnerForward (e : ResolvedRotSkewScale) : PathDrawOptions :=
  { scale := e.scale, rotate := e.rotate }

/-- The text one shorthand attribute contributes to the transform list: its
raw value and a blank when present, nothing when absent. -/
def prependedValue (v : Option String) : String :=
  match v with
  | some s => s ++ " "
  | none => ""

theorem prependStep_eq (acc : String) (v : Option String) :
    prependStep acc v = prependedValue v ++ acc := by
  cases v <;> rfl

/-- Claim C10 amended: for every element carrying rotate, skewX, skewY or
scale presentation attributes (in any combination), each raw attribute value
is prepended verbatim to the element's transform list (in the fixed shorthand
order, ahead of the `transform` attribute), and each value's first numeral is
parsed (integer-truncated) into the corresponding resolved field, which the
draw dispatcher forwards unmodified (rotate/xSkew/ySkew on the
rectangle-drawing call, scale/rotate on the path-drawing call); but a value
composes into the coordinate converter only through the `name(args)` matches
the transform-instruction regex finds in the built list — each parsed
instruction is folded onto the converter in order. -/
theorem shorthand_attributes_prepended_parsed_forwarded (a : DirectAttrs)
    (C : SVGSizeConverter ℝ) :
    buildTransformList a
        = prependedValue a.scaleY ++ (prependedValue a.scaleX ++ (prependedValue a.scale
          ++ (prependedValue a.rotate ++ (prependedValue a.skewY ++ (prependedValue a.skewX
          ++ (prependedValue a.translateY ++ (prependedValue a.translateX
          ++ (prependedValue a.translate ++ a.transform.getD ""))))))))
    ∧ (∀ name rawArgs restInstrs,
        parseInstrPairs (buildTransformList a) = (name, rawArgs) :: restInstrs →
        applyTransformInstrs (parseInstrPairs (buildTransformList a)) C
          = applyTransformInstrs restInstrs (transform C name (parseTransformArgs rawArgs)))
    ∧ (∀ s, a.rotate = some s →
        (resolveRotSkewScale a).rotate = (matchFirstNumber s).bind parseIntJS)
    ∧ (∀ s, a.skewX = some s →
        (resolveRotSkewScale a).skewX = (matchFirstNumber s).bind parseIntJS)
    ∧ (∀ s, a.skewY = some s →
        (resolveRotSkewScale a).skewY = (matchFirstNumber s).bind parseIntJS)
    ∧ (∀ s, a.scale = some s →
        (resolveRotSkewScale a).scale = (matchFirstNumber s).bind parseIntJS)
    ∧ (rectRunnerForward (resolveRotSkewScale a)).rotate = (resolveRotSkewScale a).rotate
    ∧ (rectRunnerForward (resolveRotSkewScale a)).xSkew = (resolveRotSkewScale a).skewX
    ∧ (rectRunnerForward (resolveRotSkewScale a)).ySkew = (resolveRotSkewScale a).skewY
    ∧ (pathRunnerForward (resolveRotSkewScale a)).scale = (resolveRotSkewScale a).scale := by
  refine ⟨?_, ?_, ?_, ?_, ?_, ?_, rfl, rfl, rfl, rfl⟩
  · simp only [buildTransformList, List.foldl_cons, List.foldl_nil, prependStep_eq]
  · intro name rawArgs restInstrs hparse
    rw [hparse]
    simp [applyTransformInstrs]
  · intro s hs
    simp [resolveRotSkewScale, extractAngle, hs]
  · intro s hs
    simp [resolveRotSkewScale, extractAngle, hs]
  · intro s hs
    simp [resolveRotSkewScale, extractAngle, hs]
  · intro s hs
    simp [resolveRotSkewScale, extractAngle, hs]

/-- Witness for the amended C10: an element carrying all four shorthand
attributes in functional notation (`rotate="rotate(45)"`, `skewX="skewX(10)"`,
`skewY="skewY(20)"`, `scale="scale(2)"`) builds the transform list
`"scale(2) rotate(45) skewY(20) skewX(10) "`; its first parsed instruction
composes `scale(2)` onto the converter with the remaining instructions
folded after it, and each resolved field is the parsed numeral of its own
attribute value. -/
theorem shorthand_attributes_prepended_parsed_forwarded_witness :
    applyTransformInstrs
        (parseInstrPairs (buildTransformList
          { rotate := some "rotate(45)", skewX := some "skewX(10)",
            skewY := some "skewY(20)", scale := some "scale(2)" }))
        identityConverter
      = applyTransformInstrs [("rotate", "45"), ("skewY", "20"), ("skewX", "10")]
          (transform identityConverter "scale" (parseTransformArgs "2"))
    ∧ (resolveRotSkewScale
        { rotate := some "rotate(45)", skewX := some "skewX(10)",
          skewY := some "skewY(20)", scale := some "scale(2)" }).rotate
      = (matchFirstNumber "rotate(45)").bind parseIntJS
    ∧ (resolveRotSkewScale
        { rotate := some "rotate(45)", skewX := some "skewX(10)",
          skewY := some "skewY(20)", scale := some "scale(2)" }).skewX
      = (matchFirstNumber "skewX(10)").bind parseIntJS
    ∧ (resolveRotSkewScale
        { rotate := some "rotate(45)", skewX := some "skewX(10)",
          skewY := some "skewY(20)", scale := some "scale(2)" }).skewY
      = (matchFirstNumber "skewY(20)").bind parseIntJS
    ∧ (resolveRotSkewScale
        { rotate := some "rotate(45)", skewX := some "skewX(10)",
          skewY := some "skewY(20)", scale := some "scale(2)" }).scale
      = (matchFirstNumber "scale(2)").bind parseIntJS :=
  ⟨(shorthand_attributes_prepended_parsed_forwarded
      { rotate := some "rotate(45)", skewX := some "skewX(10)",
        skewY := some "skewY(20)", scale := some "scale(2)" }
      identityConverter).2.1 "scale" "2"
      [("rotate", "45"), ("skewY", "20"), ("skewX", "10")] (by decide),
   (shorthand_attributes_prepended_parsed_forwarded
      { rotate := some "rotate(45)", skewX := some "skewX(10)",
        skewY := some "skewY(20)", scale := some "scale(2)" }
      identityConverter).2.2.1 "rotate(45)" rfl,
   (shorthand_attributes_prepended_parsed_forwarded
      { rotate := some "rotate(45)", skewX := some "skewX(10)",
        skewY := some "skewY(20)", scale := some "scale(2)" }
      identityConverter).2.2.2.1 "skewX(10)" rfl,
   (shorthand_attributes_prepended_parsed_forwarded
      { rotate := some "rotate(45)", skewX := some "skewX(10)",
        skewY := some "skewY(20)", scale := some "scale(2)" }
      identityConverter).2.2.2.2.1 "skewY(20)" rfl,
   (shorthand_attributes_prepended_parsed_forwarded
      { rotate := some "rotate(45)", skewX := some "skewX(10)",
        skewY := some "skewY(20)", scale := some "scale(2)" }
      identityConverter).2.2.2.2.2.1 "scale(2)" rfl⟩

/-- Counterexample to C10 as stated: for a bare numeric attribute
`rotate="45"` the value is prepended to the transform list, but the
instruction regex finds no `name(args)` match in `"45 "`, so no instruction
at all is composed into the coordinate converter (which stays the inherited
converter unchanged) — while the numeric value 45 is still parsed into the
resolved rotate field.  The claimed unconditional double application
therefore fails. -/
theorem rotate_attribute_bare_number_composes_nothing :
    buildTransformList { rotate := some "45" } = "45 "
    ∧ parseInstrPairs (buildTransformList { rotate := some "45" }) = []
    ∧ applyTransformInstrs
          (parseInstrPairs (buildTransformList { rotate := some "45" }))
          identityConverter
        = identityConverter
    ∧ (resolveRotSkewScale { rotate := some "45" }).rotate = some 45 := by
  refine ⟨by decide, by decide, ?_, by decide⟩
  have h : parseInstrPairs (buildTransformList { rotate := some "45" }) = [] := by decide
  rw [h]
  rfl

end PdfSvg
